import Mathlib

/-!
Verification development for the pi-recorder repository (src/record.py).

The program is a continuous session recorder: `record_session` acquires a
pose source (HandTracker), verifies it by pulling one frame, and only then
creates the session directory, writes `camera_info.json`, writes a header
line to `hand_poses.jsonl`, and enters a frame loop that persists one image
artifact and one JSONL frame record per captured frame.  `main` repeatedly
invokes `record_session` while a global `running` flag holds.

We shallow-embed the session controller as pure functions over an explicit
environment: the outcomes of all external interactions (tracker
construction, frame pulls, wall-clock elapsed times, disk-usage samples,
termination signals) are inputs, and the persisted artifacts (directory
flags, camera info, pose-file lines, image files, metadata) are the output
state.  Elapsed wall-clock time is modelled directly in integer
milliseconds (the source computes `timestamp_ms = int(elapsed * 1000)`),
and Python floats are modelled as exact rationals.
-/

/-- record.py lines 25-32: the fixed 21-entry hand landmark schema. -/
def HAND_LANDMARK_NAMES : List String := [
  "WRIST",
  "THUMB_CMC", "THUMB_MCP", "THUMB_IP", "THUMB_TIP",
  "INDEX_FINGER_MCP", "INDEX_FINGER_PIP", "INDEX_FINGER_DIP", "INDEX_FINGER_TIP",
  "MIDDLE_FINGER_MCP", "MIDDLE_FINGER_PIP", "MIDDLE_FINGER_DIP", "MIDDLE_FINGER_TIP",
  "RING_FINGER_MCP", "RING_FINGER_PIP", "RING_FINGER_DIP", "RING_FINGER_TIP",
  "PINKY_MCP", "PINKY_PIP", "PINKY_DIP", "PINKY_TIP"]

/-- record.py lines 34-44: the fixed 17-entry body keypoint schema. -/
def BODY_KEYPOINT_NAMES : List String := [
  "NOSE",
  "LEFT_EYE", "RIGHT_EYE",
  "LEFT_EAR", "RIGHT_EAR",
  "LEFT_SHOULDER", "RIGHT_SHOULDER",
  "LEFT_ELBOW", "RIGHT_ELBOW",
  "LEFT_WRIST", "RIGHT_WRIST",
  "LEFT_HIP", "RIGHT_HIP",
  "LEFT_KNEE", "RIGHT_KNEE",
  "LEFT_ANKLE", "RIGHT_ANKLE"]

/-- Python str.capitalize: first character upper-cased, the rest lower-cased
(record.py line 206, hand.label.capitalize()). -/
def pyCapitalize (s : String) : String :=
  match s.data with
  | [] => ""
  | c :: cs => String.mk (c.toUpper :: cs.map Char.toLower)

/-- Zero-padding to six digits, as in the Python format spec 06d
(record.py line 236). -/
def pad6 (n : Nat) : String :=
  let s := toString n
  String.mk (List.replicate (6 - s.length) '0') ++ s

/-- record.py lines 236-237: image artifact name for sequence number n,
f-string frame_{n:06d} followed by the .jpg suffix added at the imwrite
call. -/
def imgFile (n : Nat) : String :=
  "frame_" ++ pad6 n ++ ".jpg"

/-- Camera intrinsics (record.py lines 127-147).  Float values are
modelled as exact rationals. -/
structure Intrinsics where
  fx : ℚ
  fy : ℚ
  cx : ℚ
  cy : ℚ
  width : Nat
  height : Nat
deriving DecidableEq, Repr

/-- One hand detection as consumed by the frame loop (record.py lines
204-224).  The source probes landmarks, world_landmarks and xyz with
hasattr and an is-not-None test; attribute-absent and attribute-None both
take the default branch, so both collapse to none here.  label and
lm_score are read unguarded by the loop, hence mandatory in this type;
HandAttrs below models the fully duck-typed view.  Numeric payloads are
opaque integers. -/
structure HandDet where
  label : String
  lm_score : ℚ
  landmarks : Option (List (List Int))
  world_landmarks : Option (List (List Int))
  xyz : Option (List Int)
deriving DecidableEq, Repr

/-- The normalized per-hand entry of a frame record (record.py lines
205-224). -/
structure HandData where
  handedness : String
  confidence : ℚ
  landmarks_2d : List (List Int)
  landmarks_3d : List (List Int)
  palm_xyz : Option (List Int)
deriving DecidableEq, Repr

/-- The body object possibly found in the auxiliary bag (record.py lines
228-233): keypoints is probed with hasattr, scores with hasattr. -/
structure BodyObj where
  keypoints : Option (List (List Int))
  scores : Option (List ℚ)
deriving DecidableEq, Repr

/-- The body entry of a frame record (record.py lines 230-233). -/
structure BodyData where
  keypoints_2d : List (List Int)
  scores : List ℚ
deriving DecidableEq, Repr

/-- record.py lines 204-224: derive the per-hand entry.  The guarded
optional fields default to the empty list (2D/3D landmarks) or stay
absent (palm position). -/
def mkHandData (h : HandDet) : HandData :=
  { handedness := pyCapitalize h.label
  , confidence := h.lm_score
  , landmarks_2d := h.landmarks.getD []
  , landmarks_3d := h.world_landmarks.getD []
  , palm_xyz := h.xyz }

/-- record.py lines 227-233: derive the optional body entry.  A falsy bag
or a missing body key yields none; a body without a keypoints attribute
also yields none; missing scores default to the empty list. -/
def mkBodyData : Option BodyObj → Option BodyData
  | none => none
  | some b =>
    match b.keypoints with
    | none => none
    | some k => some { keypoints_2d := k, scores := b.scores.getD [] }

/-- Duck-typed attribute view of one hand detection, for the structural
tolerance analysis of record.py lines 204-224: every attribute may be
absent (outer none) and the guarded ones may also be present but None
(inner none). -/
structure HandAttrs where
  label : Option String
  lm_score : Option ℚ
  landmarks : Option (Option (List (List Int)))
  world_landmarks : Option (Option (List (List Int)))
  xyz : Option (Option (List Int))
deriving DecidableEq, Repr

/-- record.py lines 204-224 with Python attribute-access semantics made
explicit: hand.label and hand.lm_score are read without a hasattr guard,
so their absence raises (modelled as Except.error); the remaining fields
are probed with hasattr plus an is-not-None test and degrade to an empty
or absent value. -/
def mkHandDataAttrs (h : HandAttrs) : Except Unit HandData :=
  match h.label with
  | none => Except.error ()
  | some lbl =>
    match h.lm_score with
    | none => Except.error ()
    | some sc =>
      Except.ok
        { handedness := pyCapitalize lbl
        , confidence := sc
        , landmarks_2d := match h.landmarks with
            | some (some v) => v
            | _ => []
        , landmarks_3d := match h.world_landmarks with
            | some (some v) => v
            | _ => []
        , palm_xyz := match h.xyz with
            | some (some v) => some v
            | _ => none }

/-- One line of hand_poses.jsonl: the header record written at session
start (record.py lines 156-164) or a frame record (lines 240-248).  Each
constructor stands for one complete, self-describing JSON line; the
source opens and closes the file per write, so a line is appended
atomically. -/
inductive PoseLine where
  | header (intrinsics : Intrinsics) (landmark_names : List String)
      (body_keypoint_names : List String)
  | frame (frame_idx : Nat) (timestamp_ms : Nat) (hands : List HandData)
      (body : Option BodyData)
deriving DecidableEq, Repr

/-- The frame index carried by a pose line, if it is a frame record. -/
def lineIdx : PoseLine → Option Nat
  | PoseLine.frame i _ _ _ => some i
  | PoseLine.header _ _ _ => none

/-- The timestamp carried by a pose line, if it is a frame record. -/
def lineTs : PoseLine → Option Nat
  | PoseLine.frame _ t _ _ => some t
  | PoseLine.header _ _ _ => none

/-- The frame indices of a pose file, in file order. -/
def poseFrameIdxs (L : List PoseLine) : List Nat :=
  L.filterMap lineIdx

/-- The frame timestamps of a pose file, in file order. -/
def poseFrameTs (L : List PoseLine) : List Nat :=
  L.filterMap lineTs

/-- The frame-type lines of a pose file. -/
def frameLines (L : List PoseLine) : List PoseLine :=
  L.filter (fun l => (lineIdx l).isSome)

/-- Outcome of one tracker.next_frame() call: an exception, or a
(frame, hands, bag) triple whose frame may be None.  Frames are opaque
integer payloads. -/
inductive Pull where
  | exn
  | ok (frame : Option Nat) (hands : List HandDet) (bag : Option BodyObj)
deriving DecidableEq, Repr

/-- The externally determined inputs of one frame-loop iteration
(record.py lines 171-251): whether a termination signal has arrived
since the last loop-boundary check, the elapsed wall-clock time in
milliseconds, whether 30 seconds have passed since the last disk check,
the sampled disk-usage percentage, and the frame pull outcome. -/
structure LoopInput where
  signal : Bool
  elapsedMs : Nat
  diskDue : Bool
  diskUsage : ℚ
  pull : Pull
deriving DecidableEq, Repr

/-- The mutable state of the frame loop: the global running flag, the
frame counter, the timestamps list, and the persisted artifacts (image
files in write order, pose-file lines in write order). -/
structure LoopState where
  running : Bool
  frameCount : Nat
  timestamps : List Nat
  images : List (String × Nat)
  poseLines : List PoseLine
deriving DecidableEq, Repr

/-- Session configuration: max_duration (in milliseconds) and
max_disk_usage (percent), record.py lines 64-67. -/
structure Config where
  maxDurationMs : Nat
  maxDiskUsage : ℚ
deriving DecidableEq, Repr

/-- Result of one frame-loop iteration: stop the loop in the given state,
or continue from the given state. -/
inductive StepOut where
  | stop (s : LoopState)
  | next (s : LoopState)
deriving DecidableEq, Repr

/-- record.py lines 200-251: persist one captured frame.  The image is
written under the zero-padded sequence number, the frame record is
appended to the pose file as one line, the timestamp is recorded, and
the counter advances. -/
def pushFrame (s : LoopState) (t : Nat) (fr : Nat) (hands : List HandDet)
    (bag : Option BodyObj) : LoopState :=
  { running := s.running
  , frameCount := s.frameCount + 1
  , timestamps := s.timestamps ++ [t]
  , images := s.images ++ [(imgFile s.frameCount, fr)]
  , poseLines := s.poseLines ++
      [PoseLine.frame s.frameCount t (hands.map mkHandData) (mkBodyData bag)] }

/-- One iteration of the frame loop (record.py lines 171-251), in source
order: observe the running flag at the loop boundary (a pending signal
clears it first), check the duration limit, run the 30-second disk check
(over threshold clears the running flag and breaks), pull the next frame
(an exception or a None frame breaks), otherwise persist the frame and
continue. -/
def loopStep (cfg : Config) (s : LoopState) (i : LoopInput) : StepOut :=
  let s1 := if i.signal then { s with running := false } else s
  if s1.running = false then StepOut.stop s1
  else if cfg.maxDurationMs < i.elapsedMs then StepOut.stop s1
  else if i.diskDue = true ∧ cfg.maxDiskUsage < i.diskUsage then
    StepOut.stop { s1 with running := false }
  else
    match i.pull with
    | Pull.exn => StepOut.stop s1
    | Pull.ok none _ _ => StepOut.stop s1
    | Pull.ok (some fr) hands bag =>
      StepOut.next (pushFrame s1 i.elapsedMs fr hands bag)

/-- The frame loop over a script of iteration inputs.  Exhausting the
script models observing the system at a loop boundary (e.g. abrupt
interruption); a stop outcome models the loop's own break/flag exits. -/
def loopGo (cfg : Config) : LoopState → List LoopInput → LoopState
  | s, [] => s
  | s, i :: rest =>
    match loopStep cfg s i with
    | StepOut.stop s' => s'
    | StepOut.next s' => loopGo cfg s' rest

/-- Run the loop over a script, returning the reached state only when
every input was consumed with a continue outcome (no break and no flag
exit occurred).  Used to express that the loop actually reaches a given
mid-session state. -/
def consumesTo (cfg : Config) : LoopState → List LoopInput → Option LoopState
  | s, [] => some s
  | s, i :: rest =>
    match loopStep cfg s i with
    | StepOut.stop _ => none
    | StepOut.next s' => consumesTo cfg s' rest

/-- The environment of one record_session call: whether HandTracker
construction succeeds (record.py lines 79-94), the verification pull
outcome (lines 98-117), the tracker's nominal resolution, the optional
calibration read (lines 136-149, none models the exception path), and
the frame-loop script. -/
structure SessionEnv where
  initOk : Bool
  verify : Pull
  resolution : Nat × Nat
  calib : Option (ℚ × ℚ × ℚ × ℚ)
  loop : List LoopInput
deriving DecidableEq, Repr

/-- record.py lines 127-134: fallback intrinsics derived from the
nominal resolution (0.8 modelled as the exact rational 4/5). -/
def defaultIntrinsics (res : Nat × Nat) : Intrinsics :=
  { fx := (res.1 : ℚ) * (4 / 5)
  , fy := (res.1 : ℚ) * (4 / 5)
  , cx := (res.1 : ℚ) / 2
  , cy := (res.2 : ℚ) / 2
  , width := res.1
  , height := res.2 }

/-- record.py lines 127-149: the session's intrinsics are the calibration
values (with the hardcoded 1920x1080 size) when the calibration read
succeeds, otherwise the resolution-derived fallback. -/
def sessionIntrinsics (env : SessionEnv) : Intrinsics :=
  match env.calib with
  | some (fx, fy, cx, cy) =>
    { fx := fx, fy := fy, cx := cx, cy := cy, width := 1920, height := 1080 }
  | none => defaultIntrinsics env.resolution

/-- metadata.json content (record.py lines 263-269); the recording date
is environment noise and omitted. -/
structure Metadata where
  duration_seconds : ℚ
  frame_count : Nat
  fps : ℚ
deriving DecidableEq, Repr

/-- The persisted artifacts of one session attempt. -/
structure FS where
  dirCreated : Bool
  rgbDirCreated : Bool
  cameraInfo : Option Intrinsics
  poseLines : List PoseLine
  images : List (String × Nat)
  metadata : Option Metadata
deriving DecidableEq, Repr

/-- The observable outcome of record_session: the artifacts, the returned
continuation boolean, and the backoff sleeps performed (seconds). -/
structure SessionResult where
  fs : FS
  ret : Bool
  sleeps : List Nat
deriving DecidableEq, Repr

/-- No artifacts at all. -/
def emptyFS : FS :=
  { dirCreated := false, rgbDirCreated := false, cameraInfo := none
  , poseLines := [], images := [], metadata := none }

/-- record.py lines 90-94 and 98-117: the failure result of a session
attempt that never verified a first frame — nothing persisted, a fixed
5-second backoff, and the current running flag returned. -/
def failResult (r0 : Bool) : SessionResult :=
  { fs := emptyFS, ret := r0, sleeps := [5] }

/-- The loop state at ACTIVE entry (record.py lines 156-169): the header
line already written, counters zeroed. -/
def startState (env : SessionEnv) (running0 : Bool) : LoopState :=
  { running := running0
  , frameCount := 0
  , timestamps := []
  , images := []
  , poseLines := [PoseLine.header (sessionIntrinsics env)
      HAND_LANDMARK_NAMES BODY_KEYPOINT_NAMES] }

/-- record.py lines 260-269: session metadata from the final loop state.
Persisted only when at least one frame was recorded; the duration is the
last timestamp in seconds, and fps divides only when the duration is
strictly positive. -/
def sessionMetadata (s : LoopState) : Option Metadata :=
  if 0 < s.frameCount then
    some { duration_seconds := (s.timestamps.getLastD 0 : ℚ) / 1000
         , frame_count := s.frameCount
         , fps := if 0 < ((s.timestamps.getLastD 0 : ℚ) / 1000)
             then (s.frameCount : ℚ) / ((s.timestamps.getLastD 0 : ℚ) / 1000)
             else 0 }
  else none

/-- Assemble the session result from the final loop state (record.py
lines 119-164 for the created directories, camera info and header, lines
253-275 for teardown, metadata and the returned flag). -/
def finishSession (env : SessionEnv) (s : LoopState) : SessionResult :=
  { fs := { dirCreated := true
          , rgbDirCreated := true
          , cameraInfo := some (sessionIntrinsics env)
          , poseLines := s.poseLines
          , images := s.images
          , metadata := sessionMetadata s }
  , ret := s.running
  , sleeps := [] }

/-- record.py lines 64-275: one session attempt.  Construction failure
and verification failure (exception or None first frame) back off and
return the current running flag without touching storage; only after a
verified first frame are the directories, camera info and header
created and the frame loop entered. -/
def record_session (cfg : Config) (env : SessionEnv) (running0 : Bool) :
    SessionResult :=
  if env.initOk then
    match env.verify with
    | Pull.exn => failResult running0
    | Pull.ok none _ _ => failResult running0
    | Pull.ok (some _) _ _ =>
      finishSession env (loopGo cfg (startState env running0) env.loop)
  else failResult running0

/-- record.py lines 307-318: the program controller loop.  Each
iteration checks the running flag, runs one session, and stops when the
session returns false. -/
def main_loop (cfg : Config) : Bool → List SessionEnv → List SessionResult
  | _, [] => []
  | running0, env :: rest =>
    if running0 then
      let r := record_session cfg env running0
      if r.ret then r :: main_loop cfg r.ret rest else [r]
    else []

/-!
Exception-flow model for the error-handling claim.  The pure model above
assumes persistence succeeds; this second embedding of record_session
keeps only the control flow and makes every operation the source wraps —
or fails to wrap — in a try/except explicitly fallible, following the
try/except structure of record.py exactly.
-/

/-- One loop iteration's inputs for the exception-flow model: the frame
pull may raise (caught at record.py lines 190-194), while the image
write (line 237) and the pose-line append (lines 247-248) are not inside
any try block. -/
structure LoopInputE where
  signal : Bool
  elapsedMs : Nat
  diskDue : Bool
  diskUsage : ℚ
  pull : Except Unit (Option Nat)
  imwriteOk : Bool
  poseAppendOk : Bool
deriving Repr

/-- Session environment for the exception-flow model.  initOk covers the
guarded tracker construction (lines 79-94); verify the guarded first
pull (lines 98-117); cameraInfoOk, headerOk and metadataOk the unguarded
persistence writes (lines 151-152, 156-164, 263-269).  verifyExitRaises
and drainExitRaises record whether tracker.exit raises in the
verification failure paths (lines 103-106, 112-115) and in teardown
(lines 254-257); both sites swallow the exception with a bare except, so
these fields cannot influence the result. -/
structure SessionEnvE where
  initOk : Bool
  verify : Except Unit (Option Nat)
  verifyExitRaises : Bool
  cameraInfoOk : Bool
  headerOk : Bool
  loop : List LoopInputE
  drainExitRaises : Bool
  metadataOk : Bool
deriving Repr

/-- Exception-flow frame loop: an uncaught image-write or pose-append
failure propagates (error); a caught pull failure, a None frame, the
duration limit, the disk threshold and the running flag end the loop
normally with the final flag and frame count. -/
def loopGoE (cfg : Config) : Bool → Nat → List LoopInputE →
    Except Unit (Bool × Nat)
  | running, n, [] => Except.ok (running, n)
  | running, n, i :: rest =>
    let r1 := if i.signal then false else running
    if r1 = false then Except.ok (r1, n)
    else if cfg.maxDurationMs < i.elapsedMs then Except.ok (r1, n)
    else if i.diskDue = true ∧ cfg.maxDiskUsage < i.diskUsage then
      Except.ok (false, n)
    else
      match i.pull with
      | Except.error _ => Except.ok (r1, n)
      | Except.ok none => Except.ok (r1, n)
      | Except.ok (some _) =>
        if i.imwriteOk = false then Except.error ()
        else if i.poseAppendOk = false then Except.error ()
        else loopGoE cfg r1 (n + 1) rest

/-- Exception-flow model of record_session (record.py lines 64-275):
guarded construction and verification failures return the running flag;
unguarded persistence failures propagate out of the function; teardown
exit failures are swallowed regardless of their outcome. -/
def record_sessionE (cfg : Config) (env : SessionEnvE) (running0 : Bool) :
    Except Unit Bool :=
  if env.initOk then
    match env.verify with
    | Except.error _ => Except.ok running0
    | Except.ok none => Except.ok running0
    | Except.ok (some _) =>
      if env.cameraInfoOk = false then Except.error ()
      else if env.headerOk = false then Except.error ()
      else
        match loopGoE cfg running0 0 env.loop with
        | Except.error _ => Except.error ()
        | Except.ok (running, n) =>
          if 0 < n ∧ env.metadataOk = false then Except.error ()
          else Except.ok running
  else Except.ok running0

/-! Basic loop lemmas. -/

/-- Frame-loop invariant: the pose file's frame indices are exactly
0..frameCount-1 in order, the image names are the zero-padded sequence
numbers in order, the pose file's frame timestamps are exactly the
timestamps list, and the timestamps list has one entry per frame. -/
def goodState (s : LoopState) : Prop :=
  poseFrameIdxs s.poseLines = List.range s.frameCount ∧
  s.images.map Prod.fst = (List.range s.frameCount).map imgFile ∧
  poseFrameTs s.poseLines = s.timestamps ∧
  s.timestamps.length = s.frameCount

/-! Concrete fixtures used by the witnesses. -/

def cfgW : Config := { maxDurationMs := 3600000, maxDiskUsage := 90 }

def inpW : LoopInput :=
  { signal := false, elapsedMs := 100, diskDue := false, diskUsage := 50
  , pull := Pull.ok (some 7) [] none }

def envW : SessionEnv :=
  { initOk := true, verify := Pull.ok (some 5) [] none
  , resolution := (1920, 1080), calib := some (2, 2, 1, 1), loop := [inpW] }

def envFail : SessionEnv :=
  { initOk := false, verify := Pull.exn, resolution := (1920, 1080)
  , calib := none, loop := [] }

def envZ : SessionEnv :=
  { initOk := true, verify := Pull.ok (some 5) [] none
  , resolution := (1920, 1080), calib := some (2, 2, 1, 1)
  , loop := [{ signal := false, elapsedMs := 0, diskDue := false, diskUsage := 50
             , pull := Pull.ok (some 7) [] none }] }

def mdZ : Metadata :=
  { duration_seconds := (((0 : Nat) : ℚ) / 1000)
  , frame_count := 1
  , fps := if 0 < (((0 : Nat) : ℚ) / 1000)
      then ((1 : Nat) : ℚ) / (((0 : Nat) : ℚ) / 1000) else 0 }

def inpD : LoopInput :=
  { signal := false, elapsedMs := 200, diskDue := true, diskUsage := 95
  , pull := Pull.ok (some 9) [] none }

def envD : SessionEnv :=
  { initOk := true, verify := Pull.ok (some 5) [] none
  , resolution := (1920, 1080), calib := some (2, 2, 1, 1), loop := [inpW, inpD] }

def stateD : LoopState :=
  { running := true, frameCount := 1, timestamps := [100]
  , images := [(imgFile 0, 7)]
  , poseLines := [PoseLine.header
      { fx := 2, fy := 2, cx := 1, cy := 1, width := 1920, height := 1080 }
      HAND_LANDMARK_NAMES BODY_KEYPOINT_NAMES,
    PoseLine.frame 0 100 [] none] }

def envL : SessionEnv :=
  { initOk := true, verify := Pull.ok (some 11) [] none
  , resolution := (1920, 1080), calib := some (2, 2, 1, 1), loop := [inpW] }

def handW : HandDet :=
  { label := "left", lm_score := 1, landmarks := none
  , world_landmarks := none, xyz := none }

def handA : HandAttrs :=
  { label := some "right", lm_score := some 1
  , landmarks := none, world_landmarks := some none, xyz := some (some [1, 2, 3]) }

/-- An exception-flow environment whose first in-loop pose-line append
raises. -/
def envE4 : SessionEnvE :=
  { initOk := true, verify := Except.ok (some 5), verifyExitRaises := false
  , cameraInfoOk := true, headerOk := true
  , loop := [{ signal := false, elapsedMs := 0, diskDue := false, diskUsage := 50
             , pull := Except.ok (some 1), imwriteOk := true, poseAppendOk := false }]
  , drainExitRaises := false, metadataOk := true }

/-- An exception-flow environment whose in-loop pull raises and whose
release operations raise, with all persistence operations succeeding. -/
def envE5 : SessionEnvE :=
  { initOk := true, verify := Except.ok (some 3), verifyExitRaises := true
  , cameraInfoOk := true, headerOk := true
  , loop := [{ signal := false, elapsedMs := 10, diskDue := false, diskUsage := 50
             , pull := Except.error (), imwriteOk := true, poseAppendOk := true }]
  , drainExitRaises := true, metadataOk := true }

/-! Helper lemmas and the claim theorems. -/

theorem loopGo_nil (cfg : Config) (s : LoopState) : loopGo cfg s [] = s := rfl

theorem loopGo_cons_stop (cfg : Config) (s s' : LoopState) (i : LoopInput)
    (rest : List LoopInput) (h : loopStep cfg s i = StepOut.stop s') :
    loopGo cfg s (i :: rest) = s' := by
  simp [loopGo, h]

theorem loopGo_cons_next (cfg : Config) (s s' : LoopState) (i : LoopInput)
    (rest : List LoopInput) (h : loopStep cfg s i = StepOut.next s') :
    loopGo cfg s (i :: rest) = loopGo cfg s' rest := by
  simp [loopGo, h]

theorem loopStep_stop_or_push (cfg : Config) (s : LoopState) (i : LoopInput) :
    (∃ b, loopStep cfg s i = StepOut.stop { s with running := b }) ∨
    (∃ fr hands bag, i.pull = Pull.ok (some fr) hands bag ∧
      loopStep cfg s i = StepOut.next (pushFrame s i.elapsedMs fr hands bag)) := by
  unfold loopStep
  by_cases hsig : i.signal = true
  · simp only [hsig, if_true]
    exact Or.inl ⟨false, by simp⟩
  · have hsig' : i.signal = false := by
      cases h : i.signal
      · rfl
      · exact absurd h hsig
    simp only [hsig', Bool.false_eq_true, if_false]
    by_cases hrun : s.running = false
    · simp only [hrun, if_pos rfl]
      exact Or.inl ⟨false, by
        cases s
        simp_all⟩
    · rw [if_neg hrun]
      by_cases hdur : cfg.maxDurationMs < i.elapsedMs
      · rw [if_pos hdur]
        exact Or.inl ⟨s.running, rfl⟩
      · rw [if_neg hdur]
        by_cases hdisk : i.diskDue = true ∧ cfg.maxDiskUsage < i.diskUsage
        · rw [if_pos hdisk]
          exact Or.inl ⟨false, rfl⟩
        · rw [if_neg hdisk]
          cases hp : i.pull with
          | exn => exact Or.inl ⟨s.running, rfl⟩
          | ok fr hands bag =>
            cases fr with
            | none => exact Or.inl ⟨s.running, rfl⟩
            | some f => exact Or.inr ⟨f, hands, bag, rfl, rfl⟩

theorem poseFrameIdxs_append (L1 L2 : List PoseLine) :
    poseFrameIdxs (L1 ++ L2) = poseFrameIdxs L1 ++ poseFrameIdxs L2 := by
  simp [poseFrameIdxs, List.filterMap_append]

theorem poseFrameTs_append (L1 L2 : List PoseLine) :
    poseFrameTs (L1 ++ L2) = poseFrameTs L1 ++ poseFrameTs L2 := by
  simp [poseFrameTs, List.filterMap_append]

theorem loopGo_grows (cfg : Config) :
    ∀ (l : List LoopInput) (s : LoopState),
    ∃ pl im, (loopGo cfg s l).poseLines = s.poseLines ++ pl ∧
      (∀ x ∈ pl, (lineIdx x).isSome = true) ∧
      (loopGo cfg s l).images = s.images ++ im := by
  intro l
  induction l with
  | nil => exact fun s => ⟨[], [], by simp [loopGo_nil]⟩
  | cons i rest ih =>
    intro s
    rcases loopStep_stop_or_push cfg s i with ⟨b, hstep⟩ | ⟨fr, hands, bag, _, hstep⟩
    · rw [loopGo_cons_stop cfg s _ i rest hstep]
      exact ⟨[], [], by simp⟩
    · rw [loopGo_cons_next cfg s _ i rest hstep]
      rcases ih (pushFrame s i.elapsedMs fr hands bag) with ⟨pl, im, h1, h2, h3⟩
      refine ⟨PoseLine.frame s.frameCount i.elapsedMs (hands.map mkHandData)
          (mkBodyData bag) :: pl,
        (imgFile s.frameCount, fr) :: im, ?_, ?_, ?_⟩
      · rw [h1]; simp [pushFrame]
      · intro x hx
        rw [List.mem_cons] at hx
        rcases hx with rfl | hx
        · simp [lineIdx]
        · exact h2 x hx
      · rw [h3]; simp [pushFrame]

theorem pushFrame_good (s : LoopState) (t fr : Nat) (hands : List HandDet)
    (bag : Option BodyObj) (h : goodState s) :
    goodState (pushFrame s t fr hands bag) := by
  obtain ⟨h1, h2, h3, h4⟩ := h
  refine ⟨?_, ?_, ?_, ?_⟩
  · simp only [pushFrame, poseFrameIdxs_append, h1, List.range_succ]
    simp [poseFrameIdxs, lineIdx]
  · simp only [pushFrame, List.map_append, h2, List.range_succ]
    simp
  · simp only [pushFrame, poseFrameTs_append, h3]
    simp [poseFrameTs, lineTs]
  · simp [pushFrame, h4]

theorem loopGo_good (cfg : Config) :
    ∀ (l : List LoopInput) (s : LoopState), goodState s →
      goodState (loopGo cfg s l) := by
  intro l
  induction l with
  | nil => exact fun s h => by rw [loopGo_nil]; exact h
  | cons i rest ih =>
    intro s h
    rcases loopStep_stop_or_push cfg s i with ⟨b, hstep⟩ | ⟨fr, hands, bag, _, hstep⟩
    · rw [loopGo_cons_stop cfg s _ i rest hstep]
      exact h
    · rw [loopGo_cons_next cfg s _ i rest hstep]
      exact ih _ (pushFrame_good s i.elapsedMs fr hands bag h)

theorem loopGo_ts_sublist (cfg : Config) :
    ∀ (l : List LoopInput) (s : LoopState),
    (loopGo cfg s l).timestamps.Sublist
      (s.timestamps ++ l.map LoopInput.elapsedMs) := by
  intro l
  induction l with
  | nil => exact fun s => by simp [loopGo_nil]
  | cons i rest ih =>
    intro s
    rcases loopStep_stop_or_push cfg s i with ⟨b, hstep⟩ | ⟨fr, hands, bag, _, hstep⟩
    · rw [loopGo_cons_stop cfg s _ i rest hstep]
      exact List.sublist_append_left _ _
    · rw [loopGo_cons_next cfg s _ i rest hstep]
      have := ih (pushFrame s i.elapsedMs fr hands bag)
      simp only [pushFrame] at this
      simpa [List.append_assoc] using this

theorem loopGo_take_initial (cfg : Config) :
    ∀ (l : List LoopInput) (k : Nat) (s : LoopState),
    (loopGo cfg s (l.take k)).poseLines <+: (loopGo cfg s l).poseLines := by
  intro l
  induction l with
  | nil => intro k s; simp [loopGo_nil]
  | cons i rest ih =>
    intro k s
    cases k with
    | zero =>
      simp only [List.take_zero, loopGo_nil]
      rcases loopGo_grows cfg (i :: rest) s with ⟨pl, _, h1, _, _⟩
      exact ⟨pl, h1.symm⟩
    | succ k =>
      simp only [List.take_succ_cons]
      rcases loopStep_stop_or_push cfg s i with ⟨b, hstep⟩ | ⟨fr, hands, bag, _, hstep⟩
      · rw [loopGo_cons_stop cfg s _ i _ hstep, loopGo_cons_stop cfg s _ i _ hstep]
      · rw [loopGo_cons_next cfg s _ i _ hstep, loopGo_cons_next cfg s _ i _ hstep]
        exact ih k _

theorem loopGo_take_succ_len (cfg : Config) :
    ∀ (l : List LoopInput) (k : Nat) (s : LoopState),
    ((loopGo cfg s (l.take (k + 1))).poseLines).length ≤
      ((loopGo cfg s (l.take k)).poseLines).length + 1 := by
  intro l
  induction l with
  | nil => intro k s; simp [loopGo_nil]
  | cons i rest ih =>
    intro k s
    cases k with
    | zero =>
      simp only [List.take_zero, List.take_succ_cons, List.take_zero, loopGo_nil]
      rcases loopStep_stop_or_push cfg s i with ⟨b, hstep⟩ | ⟨fr, hands, bag, _, hstep⟩
      · rw [loopGo_cons_stop cfg s _ i _ hstep]
        simp
      · rw [loopGo_cons_next cfg s _ i _ hstep, loopGo_nil]
        simp [pushFrame]
    | succ k =>
      simp only [List.take_succ_cons]
      rcases loopStep_stop_or_push cfg s i with ⟨b, hstep⟩ | ⟨fr, hands, bag, _, hstep⟩
      · rw [loopGo_cons_stop cfg s _ i _ hstep, loopGo_cons_stop cfg s _ i _ hstep]
        simp
      · rw [loopGo_cons_next cfg s _ i _ hstep, loopGo_cons_next cfg s _ i _ hstep]
        exact ih k _

theorem consumesTo_append (cfg : Config) :
    ∀ (pre : List LoopInput) (s0 s : LoopState) (l : List LoopInput),
    consumesTo cfg s0 pre = some s →
    loopGo cfg s0 (pre ++ l) = loopGo cfg s l := by
  intro pre
  induction pre with
  | nil =>
    intro s0 s l h
    simp only [consumesTo, Option.some_inj] at h
    rw [h]; rfl
  | cons i rest ih =>
    intro s0 s l h
    simp only [consumesTo] at h
    cases hstep : loopStep cfg s0 i with
    | stop s' => rw [hstep] at h; exact absurd h (by simp)
    | next s' =>
      rw [hstep] at h
      rw [List.cons_append, loopGo_cons_next cfg s0 s' i _ hstep]
      exact ih s' s l h

theorem record_session_ok (cfg : Config) (env : SessionEnv) (r0 : Bool)
    (f : Nat) (hs : List HandDet) (bg : Option BodyObj)
    (h1 : env.initOk = true) (h2 : env.verify = Pull.ok (some f) hs bg) :
    record_session cfg env r0 =
      finishSession env (loopGo cfg (startState env r0) env.loop) := by
  unfold record_session
  rw [h1, h2]
  rfl

theorem record_session_fail (cfg : Config) (env : SessionEnv) (r0 : Bool)
    (h : env.initOk = false ∨ env.verify = Pull.exn ∨
      ∃ hs bg, env.verify = Pull.ok none hs bg) :
    record_session cfg env r0 = failResult r0 := by
  unfold record_session
  rcases h with h | h | ⟨hs, bg, h⟩
  · rw [h]; rfl
  · rw [h]; cases henv : env.initOk <;> rfl
  · rw [h]; cases henv : env.initOk <;> rfl

theorem startState_good (env : SessionEnv) (r0 : Bool) :
    goodState (startState env r0) := by
  refine ⟨?_, ?_, ?_, ?_⟩ <;>
    simp [startState, goodState, poseFrameIdxs, poseFrameTs, lineIdx, lineTs]

theorem length_frameLines (L : List PoseLine) :
    (frameLines L).length = (poseFrameIdxs L).length := by
  induction L with
  | nil => rfl
  | cons l rest ih =>
    cases l with
    | header i ln bn => simpa [frameLines, poseFrameIdxs, lineIdx] using ih
    | frame i t hs b => simpa [frameLines, poseFrameIdxs, lineIdx] using ih

/-- C1: a session attempt whose source construction fails, or whose single
verification pull raises or yields a None frame, persists nothing (no
directory, no camera info, no pose file, no images, no metadata), sleeps
the fixed 5-second backoff and returns the current run flag; conversely,
the output directory is only ever created when construction succeeded and
the verification pull returned a non-None frame. -/
theorem claim1_verification_gate :
    (∀ (cfg : Config) (env : SessionEnv) (r0 : Bool),
      env.initOk = false ∨ env.verify = Pull.exn ∨
        (∃ hs bg, env.verify = Pull.ok none hs bg) →
      record_session cfg env r0 = { fs := emptyFS, ret := r0, sleeps := [5] }) ∧
    (∀ (cfg : Config) (env : SessionEnv) (r0 : Bool),
      (record_session cfg env r0).fs.dirCreated = true →
      env.initOk = true ∧ ∃ f hs bg, env.verify = Pull.ok (some f) hs bg) := by
  constructor
  · intro cfg env r0 h
    rw [record_session_fail cfg env r0 h]
    rfl
  · intro cfg env r0 h
    by_cases h1 : env.initOk = true
    · cases h2 : env.verify with
      | exn =>
        rw [record_session_fail cfg env r0 (Or.inr (Or.inl h2))] at h
        simp [failResult, emptyFS] at h
      | ok fr hs bg =>
        cases fr with
        | none =>
          rw [record_session_fail cfg env r0 (Or.inr (Or.inr ⟨hs, bg, h2⟩))] at h
          simp [failResult, emptyFS] at h
        | some f => exact ⟨h1, f, hs, bg, rfl⟩
    · have h1' : env.initOk = false := by
        cases hb : env.initOk
        · rfl
        · exact absurd hb h1
      rw [record_session_fail cfg env r0 (Or.inl h1')] at h
      simp [failResult, emptyFS] at h

theorem claim1_witness :
    record_session cfgW envFail true = { fs := emptyFS, ret := true, sleeps := [5] } ∧
    (envW.initOk = true ∧ ∃ f hs bg, envW.verify = Pull.ok (some f) hs bg) :=
  ⟨claim1_verification_gate.1 cfgW envFail true (Or.inl rfl),
   claim1_verification_gate.2 cfgW envW true (by decide)⟩

theorem SessionEnv.ok_cases (env : SessionEnv)
    (h : ¬ (env.initOk = false ∨ env.verify = Pull.exn ∨
      ∃ hs bg, env.verify = Pull.ok none hs bg)) :
    env.initOk = true ∧ ∃ f hs bg, env.verify = Pull.ok (some f) hs bg := by
  constructor
  · cases hb : env.initOk
    · exact absurd (Or.inl hb) h
    · rfl
  · cases hv : env.verify with
    | exn => exact absurd (Or.inr (Or.inl hv)) h
    | ok fr hs bg =>
      cases fr with
      | none => exact absurd (Or.inr (Or.inr ⟨hs, bg, hv⟩)) h
      | some f => exact ⟨f, hs, bg, rfl⟩

/-- C3: every pose record is appended as one complete line; observing the
session at any earlier loop boundary (truncating the iteration script to
its first k inputs) yields a pose file that is a prefix of the final one
(no earlier line is ever truncated or rewritten), and running one more
iteration adds at most one line (so an abrupt interruption loses at most
the in-flight frame's record). -/
theorem claim3_pose_stream_append_only :
    ∀ (cfg : Config) (env : SessionEnv) (r0 : Bool) (k : Nat),
    (record_session cfg { env with loop := env.loop.take k } r0).fs.poseLines <+:
      (record_session cfg env r0).fs.poseLines ∧
    ((record_session cfg { env with loop := env.loop.take (k+1) } r0).fs.poseLines).length ≤
      ((record_session cfg { env with loop := env.loop.take k } r0).fs.poseLines).length + 1 := by
  intro cfg env r0 k
  by_cases hfail : env.initOk = false ∨ env.verify = Pull.exn ∨
      ∃ hs bg, env.verify = Pull.ok none hs bg
  · rw [record_session_fail cfg env r0 hfail,
      record_session_fail cfg { env with loop := env.loop.take k } r0 hfail,
      record_session_fail cfg { env with loop := env.loop.take (k+1) } r0 hfail]
    exact ⟨⟨[], List.append_nil _⟩, by simp⟩
  · obtain ⟨h1, f, hs, bg, h2⟩ := SessionEnv.ok_cases env hfail
    rw [record_session_ok cfg env r0 f hs bg h1 h2,
      record_session_ok cfg { env with loop := env.loop.take k } r0 f hs bg h1 h2,
      record_session_ok cfg { env with loop := env.loop.take (k+1) } r0 f hs bg h1 h2]
    exact ⟨loopGo_take_initial cfg env.loop k (startState env r0),
      loopGo_take_succ_len cfg env.loop k (startState env r0)⟩

/-- C8: every session that reaches the ACTIVE state writes the header
record as the first pose-file line, carrying the 21-entry hand landmark
schema and the 17-entry body keypoint schema, and every later line is a
frame record. -/
theorem claim8_header_then_frames (cfg : Config) (env : SessionEnv) (r0 : Bool)
    (f : Nat) (hs : List HandDet) (bg : Option BodyObj)
    (h1 : env.initOk = true) (h2 : env.verify = Pull.ok (some f) hs bg) :
    ∃ rest, (record_session cfg env r0).fs.poseLines =
        PoseLine.header (sessionIntrinsics env) HAND_LANDMARK_NAMES
          BODY_KEYPOINT_NAMES :: rest ∧
      (∀ x ∈ rest, (lineIdx x).isSome = true) ∧
      HAND_LANDMARK_NAMES.length = 21 ∧ BODY_KEYPOINT_NAMES.length = 17 := by
  rw [record_session_ok cfg env r0 f hs bg h1 h2]
  rcases loopGo_grows cfg env.loop (startState env r0) with ⟨pl, im, hpl, hfr, _⟩
  refine ⟨pl, ?_, hfr, by decide, by decide⟩
  show (loopGo cfg (startState env r0) env.loop).poseLines = _
  rw [hpl]
  rfl

theorem claim8_witness :
    ∃ rest, (record_session cfgW envW true).fs.poseLines =
        PoseLine.header (sessionIntrinsics envW) HAND_LANDMARK_NAMES
          BODY_KEYPOINT_NAMES :: rest ∧
      (∀ x ∈ rest, (lineIdx x).isSome = true) ∧
      HAND_LANDMARK_NAMES.length = 21 ∧ BODY_KEYPOINT_NAMES.length = 17 :=
  claim8_header_then_frames cfgW envW true 5 [] none rfl rfl

/-- C2: within one session the persisted frame records carry frame
indices exactly 0, 1, 2, ... in order, the image artifacts are named by
the same zero-padded sequence numbers in the same order, and (under
monotone wall-clock time) the recorded timestamps are non-decreasing. -/
theorem claim2_frame_sequence (cfg : Config) (env : SessionEnv) (r0 : Bool)
    (hmono : List.Pairwise (· ≤ ·) (env.loop.map LoopInput.elapsedMs)) :
    poseFrameIdxs (record_session cfg env r0).fs.poseLines =
      List.range (poseFrameIdxs (record_session cfg env r0).fs.poseLines).length ∧
    (record_session cfg env r0).fs.images.map Prod.fst =
      (List.range (poseFrameIdxs (record_session cfg env r0).fs.poseLines).length).map
        imgFile ∧
    List.Pairwise (· ≤ ·) (poseFrameTs (record_session cfg env r0).fs.poseLines) := by
  by_cases hfail : env.initOk = false ∨ env.verify = Pull.exn ∨
      ∃ hs bg, env.verify = Pull.ok none hs bg
  · rw [record_session_fail cfg env r0 hfail]
    exact ⟨rfl, rfl, by simp [failResult, emptyFS, poseFrameTs]⟩
  · obtain ⟨h1, f, hs, bg, h2⟩ := SessionEnv.ok_cases env hfail
    rw [record_session_ok cfg env r0 f hs bg h1 h2]
    obtain ⟨g1, g2, g3, g4⟩ :=
      loopGo_good cfg env.loop (startState env r0) (startState_good env r0)
    have hsub := loopGo_ts_sublist cfg env.loop (startState env r0)
    generalize hgen : loopGo cfg (startState env r0) env.loop = s at g1 g2 g3 g4 hsub
    simp only [finishSession]
    have hlen : (poseFrameIdxs s.poseLines).length = s.frameCount := by
      rw [g1, List.length_range]
    refine ⟨?_, ?_, ?_⟩
    · rw [hlen, g1]
    · rw [hlen, g2]
    · rw [g3]
      simp only [startState, List.nil_append] at hsub
      exact hmono.sublist hsub

theorem claim2_witness :
    List.Pairwise (· ≤ ·) (envW.loop.map LoopInput.elapsedMs) ∧
    (poseFrameIdxs (record_session cfgW envW true).fs.poseLines =
      List.range (poseFrameIdxs (record_session cfgW envW true).fs.poseLines).length ∧
    (record_session cfgW envW true).fs.images.map Prod.fst =
      (List.range (poseFrameIdxs (record_session cfgW envW true).fs.poseLines).length).map
        imgFile ∧
    List.Pairwise (· ≤ ·) (poseFrameTs (record_session cfgW envW true).fs.poseLines)) :=
  ⟨by decide, claim2_frame_sequence cfgW envW true (by decide)⟩

/-- C7: a session whose loop recorded zero frames persists no metadata,
no images and no frame lines; a session with at least one recorded frame
persists metadata whose duration is the last frame's timestamp in
seconds and whose frame count equals the number of persisted frame
records. -/
theorem claim7_metadata_presence (cfg : Config) (env : SessionEnv) (r0 : Bool) :
    ((frameLines (record_session cfg env r0).fs.poseLines).length = 0 →
      (record_session cfg env r0).fs.metadata = none ∧
      (record_session cfg env r0).fs.images = [] ∧
      frameLines (record_session cfg env r0).fs.poseLines = []) ∧
    (1 ≤ (frameLines (record_session cfg env r0).fs.poseLines).length →
      ∃ fps, (record_session cfg env r0).fs.metadata = some
        { duration_seconds :=
            (((poseFrameTs (record_session cfg env r0).fs.poseLines).getLastD 0 : ℚ) / 1000)
        , frame_count := (frameLines (record_session cfg env r0).fs.poseLines).length
        , fps := fps }) := by
  by_cases hfail : env.initOk = false ∨ env.verify = Pull.exn ∨
      ∃ hs bg, env.verify = Pull.ok none hs bg
  · rw [record_session_fail cfg env r0 hfail]
    constructor
    · intro _
      exact ⟨rfl, rfl, rfl⟩
    · intro habs
      simp [failResult, emptyFS, frameLines] at habs
  · obtain ⟨h1, f, hs, bg, h2⟩ := SessionEnv.ok_cases env hfail
    rw [record_session_ok cfg env r0 f hs bg h1 h2]
    obtain ⟨g1, g2, g3, g4⟩ :=
      loopGo_good cfg env.loop (startState env r0) (startState_good env r0)
    generalize hgen : loopGo cfg (startState env r0) env.loop = s at g1 g2 g3 g4
    simp only [finishSession]
    have hflen : (frameLines s.poseLines).length = s.frameCount := by
      rw [length_frameLines, g1, List.length_range]
    constructor
    · intro h0
      have hc : s.frameCount = 0 := by rw [← hflen]; exact h0
      refine ⟨?_, ?_, List.length_eq_zero.mp h0⟩
      · unfold sessionMetadata
        rw [hc]
        simp
      · have himg := g2
        rw [hc] at himg
        simpa using himg
    · intro hge
      rw [hflen] at hge
      have hc : 0 < s.frameCount := hge
      refine ⟨if 0 < ((s.timestamps.getLastD 0 : ℚ) / 1000)
          then (s.frameCount : ℚ) / ((s.timestamps.getLastD 0 : ℚ) / 1000) else 0, ?_⟩
      rw [g3, hflen]
      unfold sessionMetadata
      rw [if_pos hc]

theorem claim7_witness :
    ((record_session cfgW envFail true).fs.metadata = none ∧
      (record_session cfgW envFail true).fs.images = [] ∧
      frameLines (record_session cfgW envFail true).fs.poseLines = []) ∧
    (∃ fps, (record_session cfgW envW true).fs.metadata = some
      { duration_seconds :=
          (((poseFrameTs (record_session cfgW envW true).fs.poseLines).getLastD 0 : ℚ) / 1000)
      , frame_count := (frameLines (record_session cfgW envW true).fs.poseLines).length
      , fps := fps }) :=
  ⟨(claim7_metadata_presence cfgW envFail true).1 (by decide),
   (claim7_metadata_presence cfgW envW true).2 (by decide)⟩

/-- C9: whenever session metadata is persisted, its fps field is the
frame count divided by the duration only when the duration is strictly
positive, and is 0 when the duration is 0 (the source guards the
division with an explicit conditional). -/
theorem claim9_fps_guard (cfg : Config) (env : SessionEnv) (r0 : Bool)
    (md : Metadata)
    (h : (record_session cfg env r0).fs.metadata = some md) :
    (md.duration_seconds = 0 → md.fps = 0) ∧
    (0 < md.duration_seconds →
      md.fps = (md.frame_count : ℚ) / md.duration_seconds) := by
  by_cases hfail : env.initOk = false ∨ env.verify = Pull.exn ∨
      ∃ hs bg, env.verify = Pull.ok none hs bg
  · rw [record_session_fail cfg env r0 hfail] at h
    exact absurd h (by simp [failResult, emptyFS])
  · obtain ⟨h1, f, hs, bg, h2⟩ := SessionEnv.ok_cases env hfail
    rw [record_session_ok cfg env r0 f hs bg h1 h2] at h
    simp only [finishSession] at h
    unfold sessionMetadata at h
    by_cases hc : 0 < (loopGo cfg (startState env r0) env.loop).frameCount
    · rw [if_pos hc] at h
      obtain rfl : md = _ := (Option.some_inj.mp h).symm
      constructor
      · intro hd
        simp only at hd ⊢
        rw [hd]
        simp
      · intro hd
        simp only at hd ⊢
        rw [if_pos hd]
    · rw [if_neg hc] at h
      exact absurd h (by simp)

theorem claim9_witness :
    (mdZ.duration_seconds = 0 → mdZ.fps = 0) ∧
    (0 < mdZ.duration_seconds →
      mdZ.fps = (mdZ.frame_count : ℚ) / mdZ.duration_seconds) :=
  claim9_fps_guard cfgW envZ true mdZ rfl

/-- C6: when the periodic disk check samples usage strictly above the
threshold mid-session, the frame loop stops at that very iteration with
the global run flag cleared, record_session finishes the session from
the state already captured (metadata included) and returns false, and
the program controller runs no further session. -/
theorem claim6_disk_stop (cfg : Config) (env : SessionEnv) (f : Nat)
    (hs : List HandDet) (bg : Option BodyObj) (pre : List LoopInput)
    (inp : LoopInput) (rest : List LoopInput) (s : LoopState)
    (envs : List SessionEnv)
    (h1 : env.initOk = true) (h2 : env.verify = Pull.ok (some f) hs bg)
    (h3 : env.loop = pre ++ inp :: rest)
    (h4 : consumesTo cfg (startState env true) pre = some s)
    (h5 : s.running = true) (h6 : inp.signal = false)
    (h7 : ¬ cfg.maxDurationMs < inp.elapsedMs)
    (h8 : inp.diskDue = true) (h9 : cfg.maxDiskUsage < inp.diskUsage) :
    record_session cfg env true = finishSession env { s with running := false } ∧
    (record_session cfg env true).ret = false ∧
    (record_session cfg env true).fs.metadata =
      sessionMetadata { s with running := false } ∧
    main_loop cfg true (env :: envs) = [record_session cfg env true] := by
  have hstep : loopStep cfg s inp = StepOut.stop { s with running := false } := by
    simp [loopStep, h5, h6, h7, h8, h9]
  have hloop : loopGo cfg (startState env true) env.loop =
      { s with running := false } := by
    rw [h3, consumesTo_append cfg pre (startState env true) s (inp :: rest) h4,
      loopGo_cons_stop cfg s { s with running := false } inp rest hstep]
  have hrs : record_session cfg env true =
      finishSession env { s with running := false } := by
    rw [record_session_ok cfg env true f hs bg h1 h2, hloop]
  have hret : (record_session cfg env true).ret = false := by rw [hrs]; rfl
  refine ⟨hrs, hret, by rw [hrs]; rfl, ?_⟩
  unfold main_loop
  rw [if_pos rfl]
  simp [hret]

theorem claim6_witness :
    record_session cfgW envD true = finishSession envD { stateD with running := false } ∧
    (record_session cfgW envD true).ret = false ∧
    (record_session cfgW envD true).fs.metadata =
      sessionMetadata { stateD with running := false } ∧
    main_loop cfgW true (envD :: []) = [record_session cfgW envD true] :=
  claim6_disk_stop cfgW envD 5 [] none [inpW] inpD [] stateD []
    rfl rfl rfl (by decide) rfl rfl (by decide) rfl (by decide)

/-- C10: the frame pulled during verification is discarded: the session
outcome is entirely independent of the verification pull's payload, and
the persisted record with frame index 0 (and the first image artifact)
comes from the first successful pull made inside the frame loop. -/
theorem claim10_verify_frame_discarded (cfg : Config) (env : SessionEnv) (r0 : Bool) :
    (∀ f hs bg f2 hs2 bg2,
      record_session cfg { env with verify := Pull.ok (some f) hs bg } r0 =
        record_session cfg { env with verify := Pull.ok (some f2) hs2 bg2 } r0) ∧
    (∀ f0 hs0 bg0 inp rest fr hs bg,
      env.initOk = true → env.verify = Pull.ok (some f0) hs0 bg0 →
      env.loop = inp :: rest → r0 = true → inp.signal = false →
      ¬ cfg.maxDurationMs < inp.elapsedMs → inp.diskDue = false →
      inp.pull = Pull.ok (some fr) hs bg →
      (record_session cfg env r0).fs.poseLines[1]? =
        some (PoseLine.frame 0 inp.elapsedMs (hs.map mkHandData) (mkBodyData bg)) ∧
      (record_session cfg env r0).fs.images[0]? = some (imgFile 0, fr)) := by
  constructor
  · intro f hs bg f2 hs2 bg2
    rfl
  · intro f0 hs0 bg0 inp rest fr hs bg h1 h2 h3 hr0 h6 h7 h8 hp
    subst hr0
    have hstep : loopStep cfg (startState env true) inp =
        StepOut.next (pushFrame (startState env true) inp.elapsedMs fr hs bg) := by
      simp [loopStep, h6, h7, h8, hp, startState]
    have hloop : loopGo cfg (startState env true) env.loop =
        loopGo cfg (pushFrame (startState env true) inp.elapsedMs fr hs bg) rest := by
      rw [h3, loopGo_cons_next cfg _ _ inp rest hstep]
    rw [record_session_ok cfg env true f0 hs0 bg0 h1 h2, hloop]
    rcases loopGo_grows cfg rest (pushFrame (startState env true) inp.elapsedMs fr hs bg)
      with ⟨pl, im, hpl, _, him⟩
    constructor
    · show (loopGo cfg (pushFrame (startState env true) inp.elapsedMs fr hs bg)
          rest).poseLines[1]? = _
      rw [hpl, List.getElem?_append_left (by simp [pushFrame, startState])]
      rfl
    · show (loopGo cfg (pushFrame (startState env true) inp.elapsedMs fr hs bg)
          rest).images[0]? = _
      rw [him, List.getElem?_append_left (by simp [pushFrame, startState])]
      rfl

theorem claim10_witness :
    (record_session cfgW { envL with verify := Pull.ok (some 11) [] none } true =
      record_session cfgW { envL with verify := Pull.ok (some 42) [handW] none } true) ∧
    ((record_session cfgW envL true).fs.poseLines[1]? =
      some (PoseLine.frame 0 inpW.elapsedMs (([] : List HandDet).map mkHandData)
        (mkBodyData none)) ∧
    (record_session cfgW envL true).fs.images[0]? = some (imgFile 0, 7)) :=
  ⟨(claim10_verify_frame_discarded cfgW envL true).1 11 [] none 42 [handW] none,
   (claim10_verify_frame_discarded cfgW envL true).2 11 [] none inpW [] 7 [] none
      rfl rfl rfl rfl rfl (by decide) rfl rfl⟩

/-- C5 counterexample: a hand detection carrying landmark data but no
label attribute makes the per-hand derivation raise (the source reads
hand.label without a guard), so the record derivation is not tolerant of
the absence of arbitrary attributes. -/
theorem claim5_counterexample :
    mkHandDataAttrs
      { label := none, lm_score := some 1
      , landmarks := some (some [[0, 0, 0]])
      , world_landmarks := some none, xyz := none } = Except.error () := rfl

/-- C5 (amended): for every hand detection that does carry the label and
lm_score attributes (the two the source reads unguarded), deriving the
per-hand entry never raises, the guarded 2D/3D landmark fields default
to the empty sequence (never null) when the attribute is absent or None,
and the palm position degrades to an absent value. -/
theorem claim5_tolerant_fields (h : HandAttrs) (lbl : String) (sc : ℚ)
    (hl : h.label = some lbl) (hsc : h.lm_score = some sc) :
    ∃ d, mkHandDataAttrs h = Except.ok d ∧
      d.handedness = pyCapitalize lbl ∧ d.confidence = sc ∧
      ((h.landmarks = none ∨ h.landmarks = some none) → d.landmarks_2d = []) ∧
      (∀ v, h.landmarks = some (some v) → d.landmarks_2d = v) ∧
      ((h.world_landmarks = none ∨ h.world_landmarks = some none) →
        d.landmarks_3d = []) ∧
      (∀ v, h.world_landmarks = some (some v) → d.landmarks_3d = v) ∧
      ((h.xyz = none ∨ h.xyz = some none) → d.palm_xyz = none) ∧
      (∀ v, h.xyz = some (some v) → d.palm_xyz = some v) := by
  refine ⟨{ handedness := pyCapitalize lbl, confidence := sc
          , landmarks_2d := match h.landmarks with
              | some (some v) => v
              | _ => []
          , landmarks_3d := match h.world_landmarks with
              | some (some v) => v
              | _ => []
          , palm_xyz := match h.xyz with
              | some (some v) => some v
              | _ => none }, ?_, rfl, rfl, ?_, ?_, ?_, ?_, ?_, ?_⟩
  · unfold mkHandDataAttrs
    rw [hl, hsc]
  · intro hc
    rcases hc with hc | hc <;> simp only [hc]
  · intro v hv
    simp only [hv]
  · intro hc
    rcases hc with hc | hc <;> simp only [hc]
  · intro v hv
    simp only [hv]
  · intro hc
    rcases hc with hc | hc <;> simp only [hc]
  · intro v hv
    simp only [hv]

theorem claim5_witness :
    ∃ d, mkHandDataAttrs handA = Except.ok d ∧
      d.handedness = pyCapitalize "right" ∧ d.confidence = 1 ∧
      ((handA.landmarks = none ∨ handA.landmarks = some none) →
        d.landmarks_2d = []) ∧
      (∀ v, handA.landmarks = some (some v) → d.landmarks_2d = v) ∧
      ((handA.world_landmarks = none ∨ handA.world_landmarks = some none) →
        d.landmarks_3d = []) ∧
      (∀ v, handA.world_landmarks = some (some v) → d.landmarks_3d = v) ∧
      ((handA.xyz = none ∨ handA.xyz = some none) → d.palm_xyz = none) ∧
      (∀ v, handA.xyz = some (some v) → d.palm_xyz = some v) :=
  claim5_tolerant_fields handA "right" 1 rfl rfl

theorem loopGoE_ok (cfg : Config) :
    ∀ (l : List LoopInputE) (running : Bool) (n : Nat),
    (∀ i ∈ l, i.imwriteOk = true ∧ i.poseAppendOk = true) →
    ∃ r, loopGoE cfg running n l = Except.ok r := by
  intro l
  induction l with
  | nil => exact fun running n _ => ⟨(running, n), rfl⟩
  | cons i rest ih =>
    intro running n hall
    have hi := hall i (List.mem_cons_self i rest)
    have hrest : ∀ j ∈ rest, j.imwriteOk = true ∧ j.poseAppendOk = true :=
      fun j hj => hall j (List.mem_cons_of_mem i hj)
    unfold loopGoE
    by_cases h1 : (if i.signal then false else running) = false
    · rw [if_pos h1]
      exact ⟨_, rfl⟩
    · rw [if_neg h1]
      by_cases h2 : cfg.maxDurationMs < i.elapsedMs
      · rw [if_pos h2]
        exact ⟨_, rfl⟩
      · rw [if_neg h2]
        by_cases h3 : i.diskDue = true ∧ cfg.maxDiskUsage < i.diskUsage
        · rw [if_pos h3]
          exact ⟨_, rfl⟩
        · rw [if_neg h3]
          cases hp : i.pull with
          | error e => exact ⟨_, rfl⟩
          | ok fr =>
            cases fr with
            | none => exact ⟨_, rfl⟩
            | some f =>
              show ∃ r, (if i.imwriteOk = false then Except.error () else
                if i.poseAppendOk = false then Except.error ()
                else loopGoE cfg (if i.signal = true then false else running)
                  (n + 1) rest) = Except.ok r
              rw [hi.1, hi.2]
              simpa using ih (if i.signal = true then false else running) (n + 1) hrest

/-- C4 counterexample: a session whose source construction and
verification succeed but whose first in-loop pose-line append raises
propagates that exception out of record_session — the caller does not
observe a boolean, contradicting the claim that every persistence
failure is caught inside record_session. -/
theorem claim4_counterexample :
    record_sessionE cfgW envE4 true = Except.error () := rfl

/-- C4 (amended): exceptions from source construction, the verification
pull, the in-loop frame pull and source release never escape
record_session; whenever the unguarded persistence operations (camera
info, header, image writes, pose-line appends, metadata) do not
themselves raise, the caller observes only a boolean. -/
theorem claim4_exceptions_contained (cfg : Config) (env : SessionEnvE) (r0 : Bool)
    (h1 : env.cameraInfoOk = true) (h2 : env.headerOk = true)
    (h3 : env.metadataOk = true)
    (h4 : ∀ i ∈ env.loop, i.imwriteOk = true ∧ i.poseAppendOk = true) :
    ∃ b, record_sessionE cfg env r0 = Except.ok b := by
  unfold record_sessionE
  by_cases hini : env.initOk = true
  · rw [if_pos hini]
    cases hv : env.verify with
    | error e => exact ⟨r0, rfl⟩
    | ok fr =>
      cases fr with
      | none => exact ⟨r0, rfl⟩
      | some f =>
        rw [if_neg (by rw [h1]; simp), if_neg (by rw [h2]; simp)]
        obtain ⟨⟨rn, n⟩, hl⟩ := loopGoE_ok cfg env.loop r0 0 h4
        rw [hl]
        show ∃ b, (if 0 < n ∧ env.metadataOk = false then Except.error ()
          else Except.ok rn) = Except.ok b
        rw [if_neg (by simp [h3])]
        exact ⟨rn, rfl⟩
  · rw [if_neg hini]
    exact ⟨r0, rfl⟩

theorem claim4_witness :
    ∃ b, record_sessionE cfgW envE5 true = Except.ok b :=
  claim4_exceptions_contained cfgW envE5 true rfl rfl rfl (by decide)
